import Mathlib

/-!
Verification development for the Localyse translation-proxy worker
(`worker` Cloudflare module: rate limiting, abbreviation fast path,
Azure Translator adapter, optional LLM refinement, request handler).

The worker's pure logic is embedded shallowly: JavaScript functions become
Lean functions over explicit state; the two external HTTP services (Azure
Translator, OpenAI) are modelled by oracle values describing their
responses, since only the worker's handling of those responses is under
study.  JavaScript strings are modelled at codepoint granularity and
`String.toUpper`/`toLower` model the ASCII fragment of JS case mapping,
which is the fragment exercised by the dictionary keys.
-/

namespace Localyse

/-- A text layer as sent by the plugin: `{id, layerName, text}`. -/
structure TextLayer where
  id : String
  layerName : String
  text : String
deriving DecidableEq

/-- A translation result `{id, translated}` as returned by every stage. -/
structure TransResult where
  id : String
  translated : String
deriving DecidableEq

/-- JS `a || b` on an optional string-valued property: `undefined` and the
empty string are falsy. -/
def jsOrElse (a b : Option String) : Option String :=
  match a with
  | some s => if s = "" then b else some s
  | none => b

/-- JS object property lookup on a literal object, modelled as an
association list (keys are unique in the source object literals). -/
def assocFind (l : List (String × α)) (k : String) : Option α :=
  (l.find? (fun p => p.1 = k)).map (·.2)

/-- JS `String.prototype.toUpperCase`, modelled on the ASCII fragment
(`Char.toUpper`), which covers the dictionary key space. -/
def jsToUpper (s : String) : String :=
  String.mk (s.data.map Char.toUpper)

/-- JS `String.prototype.toLowerCase`, modelled on the ASCII fragment. -/
def jsToLower (s : String) : String :=
  String.mk (s.data.map Char.toLower)

/-- JS `String.prototype.trim`: strip leading and trailing whitespace. -/
def jsTrim (s : String) : String :=
  String.mk (((s.data.dropWhile Char.isWhitespace).reverse.dropWhile Char.isWhitespace).reverse)

/-- JS `s.split("-")[0]`: everything before the first hyphen. -/
def beforeHyphen (s : String) : String :=
  String.mk (s.data.takeWhile (· ≠ '-'))

/-- JS `s.startsWith(pre)`. -/
def jsStartsWith (s pre : String) : Bool :=
  pre.data.isPrefixOf s.data

/-- The worker's `ABBREV_DICT`: uppercase abbreviation to a map from
locale code to the localised abbreviated form, transcribed verbatim. -/
def ABBREV_DICT : List (String × List (String × String)) := [
  ("JAN", [("fr", "JANV"), ("de", "JAN"), ("es", "ENE"), ("it", "GEN"), ("pt", "JAN"), ("nl", "JAN"), ("pl", "STY"), ("cs", "LED"), ("da", "JAN"), ("sv", "JAN"), ("nb", "JAN"), ("fi", "TAMMI"), ("ro", "IAN"), ("hu", "JAN"), ("tr", "OCA"), ("ru", "ЯНВ"), ("uk", "СІЧ"), ("ar", "يناير"), ("ja", "1月"), ("ko", "1월"), ("zh", "1月"), ("hi", "जन"), ("th", "ม.ค."), ("vi", "Th1"), ("id", "JAN"), ("ms", "JAN"), ("bg", "ЯНУ"), ("hr", "SIJ"), ("sk", "JAN"), ("sl", "JAN"), ("lt", "SAU"), ("lv", "JAN"), ("et", "JAAN"), ("el", "ΙΑΝ"), ("he", "ינו")]),
  ("FEB", [("fr", "FÉV"), ("de", "FEB"), ("es", "FEB"), ("it", "FEB"), ("pt", "FEV"), ("nl", "FEB"), ("pl", "LUT"), ("cs", "ÚNO"), ("da", "FEB"), ("sv", "FEB"), ("nb", "FEB"), ("fi", "HELMI"), ("ro", "FEB"), ("hu", "FEB"), ("tr", "ŞUB"), ("ru", "ФЕВ"), ("uk", "ЛЮТ"), ("ar", "فبراير"), ("ja", "2月"), ("ko", "2월"), ("zh", "2月"), ("hi", "फर"), ("th", "ก.พ."), ("vi", "Th2"), ("id", "FEB"), ("ms", "FEB"), ("bg", "ФЕВ"), ("hr", "VEL"), ("sk", "FEB"), ("sl", "FEB"), ("lt", "VAS"), ("lv", "FEB"), ("et", "VEEBR"), ("el", "ΦΕΒ"), ("he", "פבר")]),
  ("MAR", [("fr", "MARS"), ("de", "MÄR"), ("es", "MAR"), ("it", "MAR"), ("pt", "MAR"), ("nl", "MRT"), ("pl", "MAR"), ("cs", "BŘE"), ("da", "MAR"), ("sv", "MAR"), ("nb", "MAR"), ("fi", "MAALIS"), ("ro", "MAR"), ("hu", "MÁR"), ("tr", "MAR"), ("ru", "МАР"), ("uk", "БЕР"), ("ar", "مارس"), ("ja", "3月"), ("ko", "3월"), ("zh", "3月"), ("hi", "मार्च"), ("th", "มี.ค."), ("vi", "Th3"), ("id", "MAR"), ("ms", "MAC"), ("bg", "МАР"), ("hr", "OŽU"), ("sk", "MAR"), ("sl", "MAR"), ("lt", "KOV"), ("lv", "MAR"), ("et", "MÄRTS"), ("el", "ΜΑΡ"), ("he", "מרץ")]),
  ("APR", [("fr", "AVR"), ("de", "APR"), ("es", "ABR"), ("it", "APR"), ("pt", "ABR"), ("nl", "APR"), ("pl", "KWI"), ("cs", "DUB"), ("da", "APR"), ("sv", "APR"), ("nb", "APR"), ("fi", "HUHTI"), ("ro", "APR"), ("hu", "ÁPR"), ("tr", "NİS"), ("ru", "АПР"), ("uk", "КВІ"), ("ar", "أبريل"), ("ja", "4月"), ("ko", "4월"), ("zh", "4月"), ("hi", "अप्रै"), ("th", "เม.ย."), ("vi", "Th4"), ("id", "APR"), ("ms", "APR"), ("bg", "АПР"), ("hr", "TRA"), ("sk", "APR"), ("sl", "APR"), ("lt", "BAL"), ("lv", "APR"), ("et", "APR"), ("el", "ΑΠΡ"), ("he", "אפר")]),
  ("MAY", [("fr", "MAI"), ("de", "MAI"), ("es", "MAY"), ("it", "MAG"), ("pt", "MAI"), ("nl", "MEI"), ("pl", "MAJ"), ("cs", "KVĚ"), ("da", "MAJ"), ("sv", "MAJ"), ("nb", "MAI"), ("fi", "TOUKO"), ("ro", "MAI"), ("hu", "MÁJ"), ("tr", "MAY"), ("ru", "МАЙ"), ("uk", "ТРА"), ("ar", "مايو"), ("ja", "5月"), ("ko", "5월"), ("zh", "5月"), ("hi", "मई"), ("th", "พ.ค."), ("vi", "Th5"), ("id", "MEI"), ("ms", "MEI"), ("bg", "МАЙ"), ("hr", "SVI"), ("sk", "MÁJ"), ("sl", "MAJ"), ("lt", "GEG"), ("lv", "MAI"), ("et", "MAI"), ("el", "ΜΑΪ"), ("he", "מאי")]),
  ("JUN", [("fr", "JUIN"), ("de", "JUN"), ("es", "JUN"), ("it", "GIU"), ("pt", "JUN"), ("nl", "JUN"), ("pl", "CZE"), ("cs", "ČER"), ("da", "JUN"), ("sv", "JUN"), ("nb", "JUN"), ("fi", "KESÄ"), ("ro", "IUN"), ("hu", "JÚN"), ("tr", "HAZ"), ("ru", "ИЮН"), ("uk", "ЧЕР"), ("ar", "يونيو"), ("ja", "6月"), ("ko", "6월"), ("zh", "6月"), ("hi", "जून"), ("th", "มิ.ย."), ("vi", "Th6"), ("id", "JUN"), ("ms", "JUN"), ("bg", "ЮНИ"), ("hr", "LIP"), ("sk", "JÚN"), ("sl", "JUN"), ("lt", "BIR"), ("lv", "JŪN"), ("et", "JUUNI"), ("el", "ΙΟΥΝ"), ("he", "יונ")]),
  ("JUL", [("fr", "JUIL"), ("de", "JUL"), ("es", "JUL"), ("it", "LUG"), ("pt", "JUL"), ("nl", "JUL"), ("pl", "LIP"), ("cs", "ČVC"), ("da", "JUL"), ("sv", "JUL"), ("nb", "JUL"), ("fi", "HEINÄ"), ("ro", "IUL"), ("hu", "JÚL"), ("tr", "TEM"), ("ru", "ИЮЛ"), ("uk", "ЛИП"), ("ar", "يوليو"), ("ja", "7月"), ("ko", "7월"), ("zh", "7月"), ("hi", "जुल"), ("th", "ก.ค."), ("vi", "Th7"), ("id", "JUL"), ("ms", "JUL"), ("bg", "ЮЛИ"), ("hr", "SRP"), ("sk", "JÚL"), ("sl", "JUL"), ("lt", "LIE"), ("lv", "JŪL"), ("et", "JUULI"), ("el", "ΙΟΥΛ"), ("he", "יול")]),
  ("AUG", [("fr", "AOÛT"), ("de", "AUG"), ("es", "AGO"), ("it", "AGO"), ("pt", "AGO"), ("nl", "AUG"), ("pl", "SIE"), ("cs", "SRP"), ("da", "AUG"), ("sv", "AUG"), ("nb", "AUG"), ("fi", "ELO"), ("ro", "AUG"), ("hu", "AUG"), ("tr", "AĞU"), ("ru", "АВГ"), ("uk", "СЕР"), ("ar", "أغسطس"), ("ja", "8月"), ("ko", "8월"), ("zh", "8月"), ("hi", "अग"), ("th", "ส.ค."), ("vi", "Th8"), ("id", "AGT"), ("ms", "OGS"), ("bg", "АВГ"), ("hr", "KOL"), ("sk", "AUG"), ("sl", "AVG"), ("lt", "RGP"), ("lv", "AUG"), ("et", "AUG"), ("el", "ΑΥΓ"), ("he", "אוג")]),
  ("SEP", [("fr", "SEPT"), ("de", "SEP"), ("es", "SEP"), ("it", "SET"), ("pt", "SET"), ("nl", "SEP"), ("pl", "WRZ"), ("cs", "ZÁŘ"), ("da", "SEP"), ("sv", "SEP"), ("nb", "SEP"), ("fi", "SYYS"), ("ro", "SEP"), ("hu", "SZEP"), ("tr", "EYL"), ("ru", "СЕН"), ("uk", "ВЕР"), ("ar", "سبتمبر"), ("ja", "9月"), ("ko", "9월"), ("zh", "9月"), ("hi", "सित"), ("th", "ก.ย."), ("vi", "Th9"), ("id", "SEP"), ("ms", "SEP"), ("bg", "СЕП"), ("hr", "RUJ"), ("sk", "SEP"), ("sl", "SEP"), ("lt", "RGS"), ("lv", "SEP"), ("et", "SEPT"), ("el", "ΣΕΠ"), ("he", "ספט")]),
  ("OCT", [("fr", "OCT"), ("de", "OKT"), ("es", "OCT"), ("it", "OTT"), ("pt", "OUT"), ("nl", "OKT"), ("pl", "PAŹ"), ("cs", "ŘÍJ"), ("da", "OKT"), ("sv", "OKT"), ("nb", "OKT"), ("fi", "LOKA"), ("ro", "OCT"), ("hu", "OKT"), ("tr", "EKİ"), ("ru", "ОКТ"), ("uk", "ЖОВ"), ("ar", "أكتوبر"), ("ja", "10月"), ("ko", "10월"), ("zh", "10月"), ("hi", "अक्टू"), ("th", "ต.ค."), ("vi", "Th10"), ("id", "OKT"), ("ms", "OKT"), ("bg", "ОКТ"), ("hr", "LIS"), ("sk", "OKT"), ("sl", "OKT"), ("lt", "SPL"), ("lv", "OKT"), ("et", "OKT"), ("el", "ΟΚΤ"), ("he", "אוק")]),
  ("NOV", [("fr", "NOV"), ("de", "NOV"), ("es", "NOV"), ("it", "NOV"), ("pt", "NOV"), ("nl", "NOV"), ("pl", "LIS"), ("cs", "LIS"), ("da", "NOV"), ("sv", "NOV"), ("nb", "NOV"), ("fi", "MARRAS"), ("ro", "NOI"), ("hu", "NOV"), ("tr", "KAS"), ("ru", "НОЯ"), ("uk", "ЛИС"), ("ar", "نوفمبر"), ("ja", "11月"), ("ko", "11월"), ("zh", "11月"), ("hi", "नव"), ("th", "พ.ย."), ("vi", "Th11"), ("id", "NOV"), ("ms", "NOV"), ("bg", "НОЕ"), ("hr", "STU"), ("sk", "NOV"), ("sl", "NOV"), ("lt", "LAP"), ("lv", "NOV"), ("et", "NOV"), ("el", "ΝΟΕ"), ("he", "נוב")]),
  ("DEC", [("fr", "DÉC"), ("de", "DEZ"), ("es", "DIC"), ("it", "DIC"), ("pt", "DEZ"), ("nl", "DEC"), ("pl", "GRU"), ("cs", "PRO"), ("da", "DEC"), ("sv", "DEC"), ("nb", "DES"), ("fi", "JOULU"), ("ro", "DEC"), ("hu", "DEC"), ("tr", "ARA"), ("ru", "ДЕК"), ("uk", "ГРУ"), ("ar", "ديسمبر"), ("ja", "12月"), ("ko", "12월"), ("zh", "12月"), ("hi", "दिस"), ("th", "ธ.ค."), ("vi", "Th12"), ("id", "DES"), ("ms", "DIS"), ("bg", "ДЕК"), ("hr", "PRO"), ("sk", "DEC"), ("sl", "DEC"), ("lt", "GRD"), ("lv", "DEC"), ("et", "DETS"), ("el", "ΔΕΚ"), ("he", "דצמ")]),
  ("MON", [("fr", "LUN"), ("de", "MO"), ("es", "LUN"), ("it", "LUN"), ("pt", "SEG"), ("nl", "MA"), ("pl", "PON"), ("cs", "PO"), ("da", "MAN"), ("sv", "MÅN"), ("nb", "MAN"), ("fi", "MA"), ("ro", "LUN"), ("hu", "HÉT"), ("tr", "PZT"), ("ru", "ПН"), ("uk", "ПН"), ("ar", "اثن"), ("ja", "月"), ("ko", "월"), ("zh", "一"), ("hi", "सोम"), ("th", "จ."), ("vi", "T2"), ("id", "SEN"), ("ms", "ISN")]),
  ("TUE", [("fr", "MAR"), ("de", "DI"), ("es", "MAR"), ("it", "MAR"), ("pt", "TER"), ("nl", "DI"), ("pl", "WT"), ("cs", "ÚT"), ("da", "TIR"), ("sv", "TIS"), ("nb", "TIR"), ("fi", "TI"), ("ro", "MAR"), ("hu", "KED"), ("tr", "SAL"), ("ru", "ВТ"), ("uk", "ВТ"), ("ar", "ثلا"), ("ja", "火"), ("ko", "화"), ("zh", "二"), ("hi", "मंगल"), ("th", "อ."), ("vi", "T3"), ("id", "SEL"), ("ms", "SEL")]),
  ("WED", [("fr", "MER"), ("de", "MI"), ("es", "MIÉ"), ("it", "MER"), ("pt", "QUA"), ("nl", "WO"), ("pl", "ŚR"), ("cs", "ST"), ("da", "ONS"), ("sv", "ONS"), ("nb", "ONS"), ("fi", "KE"), ("ro", "MIE"), ("hu", "SZE"), ("tr", "ÇAR"), ("ru", "СР"), ("uk", "СР"), ("ar", "أرب"), ("ja", "水"), ("ko", "수"), ("zh", "三"), ("hi", "बुध"), ("th", "พ."), ("vi", "T4"), ("id", "RAB"), ("ms", "RAB")]),
  ("THU", [("fr", "JEU"), ("de", "DO"), ("es", "JUE"), ("it", "GIO"), ("pt", "QUI"), ("nl", "DO"), ("pl", "CZW"), ("cs", "ČT"), ("da", "TOR"), ("sv", "TOR"), ("nb", "TOR"), ("fi", "TO"), ("ro", "JOI"), ("hu", "CSÜ"), ("tr", "PER"), ("ru", "ЧТ"), ("uk", "ЧТ"), ("ar", "خمي"), ("ja", "木"), ("ko", "목"), ("zh", "四"), ("hi", "गुरु"), ("th", "พฤ."), ("vi", "T5"), ("id", "KAM"), ("ms", "KHA")]),
  ("FRI", [("fr", "VEN"), ("de", "FR"), ("es", "VIE"), ("it", "VEN"), ("pt", "SEX"), ("nl", "VR"), ("pl", "PT"), ("cs", "PÁ"), ("da", "FRE"), ("sv", "FRE"), ("nb", "FRE"), ("fi", "PE"), ("ro", "VIN"), ("hu", "PÉN"), ("tr", "CUM"), ("ru", "ПТ"), ("uk", "ПТ"), ("ar", "جمع"), ("ja", "金"), ("ko", "금"), ("zh", "五"), ("hi", "शुक्र"), ("th", "ศ."), ("vi", "T6"), ("id", "JUM"), ("ms", "JUM")]),
  ("SAT", [("fr", "SAM"), ("de", "SA"), ("es", "SÁB"), ("it", "SAB"), ("pt", "SÁB"), ("nl", "ZA"), ("pl", "SOB"), ("cs", "SO"), ("da", "LØR"), ("sv", "LÖR"), ("nb", "LØR"), ("fi", "LA"), ("ro", "SÂM"), ("hu", "SZO"), ("tr", "CUM"), ("ru", "СБ"), ("uk", "СБ"), ("ar", "سبت"), ("ja", "土"), ("ko", "토"), ("zh", "六"), ("hi", "शनि"), ("th", "ส."), ("vi", "T7"), ("id", "SAB"), ("ms", "SAB")]),
  ("SUN", [("fr", "DIM"), ("de", "SO"), ("es", "DOM"), ("it", "DOM"), ("pt", "DOM"), ("nl", "ZO"), ("pl", "NIE"), ("cs", "NE"), ("da", "SØN"), ("sv", "SÖN"), ("nb", "SØN"), ("fi", "SU"), ("ro", "DUM"), ("hu", "VAS"), ("tr", "PAZ"), ("ru", "ВС"), ("uk", "НД"), ("ar", "أحد"), ("ja", "日"), ("ko", "일"), ("zh", "日"), ("hi", "रवि"), ("th", "อา."), ("vi", "CN"), ("id", "MIN"), ("ms", "AHD")])
]

/-- JS `match.charAt(0).toUpperCase() + match.slice(1).toLowerCase()`. -/
def capFirstLowerRest (s : String) : String :=
  match s.data with
  | [] => ""
  | c :: cs => String.mk (c.toUpper :: cs.map Char.toLower)

/-- JS `text[0] === text[0].toUpperCase()` (vacuously true on `""`,
though that case is unreachable after the dictionary lookup). -/
def firstCharUpper (text : String) : Bool :=
  match text.data with
  | [] => true
  | c :: _ => c.toUpper = c

/-- `lookupAbbrev(text, targetLocale)`: look a trimmed, uppercased text up
in `ABBREV_DICT`, resolve the locale by exact code then base language, and
restore the original casing style. -/
def lookupAbbrev (text targetLocale : String) : Option String :=
  let upper := jsToUpper (jsTrim text)
  match assocFind ABBREV_DICT upper with
  | none => none
  | some entry =>
    let baseLang := jsToLower (beforeHyphen targetLocale)
    match jsOrElse (assocFind entry targetLocale) (assocFind entry baseLang) with
    | none => none
    | some m =>
      if text = jsToUpper text then some (jsToUpper m)
      else if text = jsToLower text then some (jsToLower m)
      else if firstCharUpper text then some (capFirstLowerRest m)
      else some m

/-- JS `hay.indexOf(pat)` (`none` for `-1`), at codepoint granularity. -/
def subIndex : List Char → List Char → Option Nat
  | [], pat => if pat.isEmpty then some 0 else none
  | c :: t, pat => if pat.isPrefixOf (c :: t) then some 0 else (subIndex t pat).map (· + 1)

/-- `stripContext(translatedText, layerName)`: drop an echoed
`"[LayerName] "` context prefix when the first `"] "` occurs within
`layerName.length + 20` characters of the start; otherwise return the
text trimmed. -/
def stripContext (translatedText layerName : String) : String :=
  match subIndex translatedText.data "] ".data with
  | some bracketEnd =>
    if bracketEnd < layerName.length + 20 then
      jsTrim (String.mk (translatedText.data.drop (bracketEnd + 2)))
    else jsTrim translatedText
  | none => jsTrim translatedText

example : lookupAbbrev "JAN" "fr" = some "JANV" := by decide
example : lookupAbbrev "jan" "fr" = some "janv" := by decide
example : lookupAbbrev "Jan" "fr" = some "Janv" := by decide
example : lookupAbbrev "JAN" "fr-CA" = some "JANV" := by decide
example : lookupAbbrev "XYZ" "fr" = none := by decide
example : stripContext "[Title] Bienvenue" "Title" = "Bienvenue" := by decide
example : stripContext "Bienvenue" "Title" = "Bienvenue" := by decide

-- ────────────────────────────────────────────────────────────────────
-- Azure Translator stage (`translateWithAzure`)
-- ────────────────────────────────────────────────────────────────────

/-- One translation record inside an Azure response item. -/
structure AzureTranslation where
  text : String
deriving DecidableEq

/-- One Azure response item: `{translations: [{text, to}]}`. -/
structure AzureItem where
  translations : List AzureTranslation
deriving DecidableEq

/-- The context wrapping applied before the provider call:
`` `[${layer.layerName}] ${layer.text}` ``. -/
def wrapContext (l : TextLayer) : String :=
  "[" ++ l.layerName ++ "] " ++ l.text

/-- The pre-filled `results` array of `translateWithAzure` after its first
loop: dictionary hits are resolved in place, misses are still empty. -/
def dictResults (layers : List TextLayer) (loc : String) : List (Option TransResult) :=
  layers.map (fun l => (lookupAbbrev l.text loc).map (fun m => ⟨l.id, m⟩))

/-- The `azureLayers` list of `translateWithAzure`: the
`{originalIndex, layer}` pairs collected for every dictionary miss, in
request order. -/
def azureLayers (layers : List TextLayer) (loc : String) : List (Nat × TextLayer) :=
  layers.enum.filter (fun p => (lookupAbbrev p.2.text loc).isNone)

/-- The `Text` fields of the request body sent to Azure — one wrapped
entry per dictionary miss. -/
def azureBody (layers : List TextLayer) (loc : String) : List String :=
  (azureLayers layers loc).map (fun p => wrapContext p.2)

/-- Whether `translateWithAzure` reaches the external call at all
(`azureLayers.length === 0` short-circuits before the `fetch`). -/
def azureCalled (layers : List TextLayer) (loc : String) : Bool :=
  !(azureLayers layers loc).isEmpty

/-- JS `azureResults[i]?.translations?.[0]?.text || layer.text`: a missing
item, missing translation list, or empty text falls back to the layer's
original text. -/
def azureTextAt (resp : List AzureItem) (i : Nat) (fallback : String) : String :=
  let t := match resp[i]? with
    | some item =>
      match item.translations.head? with
      | some tr => tr.text
      | none => ""
    | none => ""
  if t = "" then fallback else t

/-- The merge loop of `translateWithAzure`: write each Azure result back
into the results array at its recorded `originalIndex`. -/
def mergeAzureResults (init : List (Option TransResult)) (az : List (Nat × TextLayer))
    (resp : List AzureItem) : List (Option TransResult) :=
  az.enum.foldl
    (fun res p =>
      res.set p.2.1 (some ⟨p.2.2.id, stripContext (azureTextAt resp p.1 p.2.2.text) p.2.2.layerName⟩))
    init

/-- Oracle describing the outcome of the (single) Azure HTTP call. -/
inductive AzureOutcome
  | ok (items : List AzureItem)
  | httpError (status : Nat) (body : String)
deriving DecidableEq

/-- JS `errText.slice(0, 200)`. -/
def jsSlice200 (s : String) : String :=
  String.mk (s.data.take 200)

/-- The message of the error thrown on a non-ok Azure response. -/
def azureErrorMessage (status : Nat) (body : String) : String :=
  "Azure Translator error (" ++ toString status ++ "): " ++ jsSlice200 body

/-- `translateWithAzure(env, textLayers, targetLocale)`: dictionary
fast-path split, optional provider call (skipped when every layer was a
dictionary hit), merge back by original index.  A thrown provider error
becomes `Except.error`.  Slots are `Option`-valued because the source
pre-allocates `new Array(textLayers.length)`; totality of the fill is
proved separately. -/
def translateWithAzure (layers : List TextLayer) (loc : String) (outcome : AzureOutcome) :
    Except String (List (Option TransResult)) :=
  let results := dictResults layers loc
  let az := azureLayers layers loc
  if az.isEmpty then .ok results
  else
    match outcome with
    | .httpError status body => .error (azureErrorMessage status body)
    | .ok items => .ok (mergeAzureResults results az items)

/-- Read the populated results out of the pre-allocated array (the JS
return value; every slot is provably `some`). -/
def depackResults (l : List (Option TransResult)) : List TransResult :=
  l.map (fun o => o.getD ⟨"", ""⟩)

-- ────────────────────────────────────────────────────────────────────
-- Rate limiting (`checkRateLimit` over Cloudflare KV)
-- ────────────────────────────────────────────────────────────────────

def DAILY_LIMIT : Nat := 25

def DAY_IN_SECONDS : Nat := 86400

/-- One stored KV entry: its string value and its absolute expiry time
(Cloudflare `expirationTtl` semantics: `put` sets expiry `ttl` seconds
from the moment of that put). -/
structure KVEntry where
  value : String
  expiresAt : Nat
deriving DecidableEq

/-- The KV namespace, as a map from key to live entry. -/
abbrev Store := String → Option KVEntry

/-- `env.RATE_LIMIT.get(key)`: `null` for an absent or expired entry. -/
def kvGet (store : Store) (key : String) (now : Nat) : Option String :=
  match store key with
  | none => none
  | some e => if now < e.expiresAt then some e.value else none

/-- `env.RATE_LIMIT.put(key, value, {expirationTtl})`: overwrite the key
with a fresh expiry anchored at the time of this put. -/
def kvPut (store : Store) (key value : String) (ttl now : Nat) : Store :=
  fun k => if k = key then some ⟨value, now + ttl⟩ else store k

/-- JS `parseInt(x) || 0` on the stored counter: `null` and non-numeric
strings give `0`; leading decimal digits are parsed otherwise (the model
covers the value space reachable by the worker, which only ever stores
canonical decimal numerals). -/
def jsParseIntOr0 : Option String → Nat
  | none => 0
  | some str =>
    let ds := str.data.takeWhile Char.isDigit
    if ds.isEmpty then 0 else ds.foldl (fun n c => n * 10 + (c.toNat - '0'.toNat)) 0

/-- The admission verdict `{allowed, remaining}`. -/
structure RateResult where
  allowed : Bool
  remaining : Nat
deriving DecidableEq

/-- `` `rate:${userId}` ``. -/
def rateKey (userId : String) : String :=
  "rate:" ++ userId

/-- `checkRateLimit(env, userId)`: read the counter; at or above
`DAILY_LIMIT` deny without touching the store, otherwise store
`current + 1` with a one-day TTL and allow. -/
def checkRateLimit (store : Store) (userId : String) (now : Nat) : RateResult × Store :=
  let key := rateKey userId
  let current := jsParseIntOr0 (kvGet store key now)
  if DAILY_LIMIT ≤ current then
    (⟨false, 0⟩, store)
  else
    (⟨true, DAILY_LIMIT - current - 1⟩, kvPut store key (toString (current + 1)) DAY_IN_SECONDS now)

/-- The read phase of `checkRateLimit` — everything up to and including
the awaited `get`.  The `await` is a suspension point: another request's
phases can interleave here. -/
def rlRead (store : Store) (userId : String) (now : Nat) : Nat :=
  jsParseIntOr0 (kvGet store (rateKey userId) now)

/-- The decide-and-write phase of `checkRateLimit`, applied to a
previously read counter value. -/
def rlWrite (store : Store) (userId : String) (now current : Nat) : RateResult × Store :=
  if DAILY_LIMIT ≤ current then
    (⟨false, 0⟩, store)
  else
    (⟨true, DAILY_LIMIT - current - 1⟩, kvPut store (rateKey userId) (toString (current + 1)) DAY_IN_SECONDS now)

/-- A sequence of admission calls for one identity at given times. -/
def admitTimes (userId : String) : Store → List Nat → List RateResult × Store
  | store, [] => ([], store)
  | store, t :: ts =>
    let rs1 := checkRateLimit store userId t
    let rs2 := admitTimes userId rs1.2 ts
    (rs1.1 :: rs2.1, rs2.2)

-- ────────────────────────────────────────────────────────────────────
-- LLM refinement stage (`refineWithLLM`)
-- ────────────────────────────────────────────────────────────────────

/-- The `translated` property of a record in the parsed LLM output:
either a JS string or some other JS value. -/
inductive LLMField
  | str (s : String)
  | notStr
deriving DecidableEq

/-- A record of the parsed LLM output (`id` missing or non-truthy is
modelled as `""`, which JS treats identically in the guard). -/
structure LLMRec where
  id : String
  translated : LLMField
deriving DecidableEq

/-- The shape of the JSON value the LLM content parses to. -/
inductive LLMJson
  | nonArray
  | arr (records : List LLMRec)
deriving DecidableEq

/-- Oracle describing the refinement call: how the HTTP request, the
response content and its parse turned out.  Prompt construction is pure
string building addressed to the external service and is absorbed into
this oracle. -/
inductive LLMOutcome
  | threw
  | httpError (status : Nat)
  | noContent
  | parseFailed
  | parsed (v : LLMJson)
deriving DecidableEq

/-- The `refinedMap` built from the parsed array: records with a truthy
`id` and a string `translated` are inserted in order (later records
overwrite earlier ones, as `Map.set` does). -/
def buildRefinedMap (records : List LLMRec) : String → Option String :=
  records.foldl
    (fun m r =>
      match r.translated with
      | .str s => if r.id = "" then m else fun k => if k = r.id then some s else m k
      | .notStr => m)
    (fun _ => none)

set_option linter.unusedVariables false in
/-- `refineWithLLM(env, textLayers, azureResults, ...)`: identity when no
OpenAI key is configured; identity on every call/parse/shape failure;
otherwise merge refined texts back over `azureResults` by id with
`refinedMap.get(r.id) || r.translated`.  `textLayers` feeds only the
prompt and so only the oracle. -/
def refineWithLLM (openaiKey : String) (textLayers : List TextLayer)
    (azureResults : List TransResult) (llm : LLMOutcome) : List TransResult :=
  if openaiKey = "" then azureResults
  else
    match llm with
    | .threw => azureResults
    | .httpError _ => azureResults
    | .noContent => azureResults
    | .parseFailed => azureResults
    | .parsed .nonArray => azureResults
    | .parsed (.arr records) =>
      let refinedMap := buildRefinedMap records
      azureResults.map (fun r =>
        ⟨r.id,
          match refinedMap r.id with
          | some s => if s = "" then r.translated else s
          | none => r.translated⟩)

-- ────────────────────────────────────────────────────────────────────
-- Main handler (`fetch`)
-- ────────────────────────────────────────────────────────────────────

/-- The worker's secrets; an unset secret is the empty string (falsy). -/
structure WorkerEnv where
  azureKey : String
  azureRegion : String
  openaiKey : String
deriving DecidableEq

/-- The `textLayers` property of the parsed request body. -/
inductive TLField
  | absent
  | nonArray
  | arr (layers : List TextLayer)
deriving DecidableEq

/-- The parsed JSON request body.  `localeLabel` and `localeCurrencies`
feed only the LLM prompt (absorbed into the LLM oracle). -/
structure Payload where
  textLayers : TLField
  targetLocale : Option String
  localeLabel : Option String
  localeCurrencies : Option (List String)
deriving DecidableEq

/-- The outcome of `await request.json()`. -/
inductive BodyParse
  | failed (msg : String)
  | ok (p : Payload)
deriving DecidableEq

/-- The handler's validation predicate
`!textLayers || !Array.isArray(textLayers) || !targetLocale`: true when
the item list is missing or not an array, or the target locale is missing
or empty (falsy). -/
def failsValidationB (p : Payload) : Bool :=
  (match p.textLayers with
   | .arr _ => false
   | _ => true) ||
  (match p.targetLocale with
   | some t => t = ""
   | none => true)

/-- The observable outcome of one `fetch` invocation: HTTP status, body
payloads, rate-limit header, the KV store afterwards, and which pipeline
stages ran (for the not-forwarded properties). -/
structure WorkerResponse where
  status : Nat
  translations : Option (List TransResult)
  errorMsg : Option String
  rateLimited : Bool
  remainingHeader : Option String
  store : Store
  dictionaryRan : Bool
  providerCalled : Bool
  refineCalled : Bool

/-- JS `request.headers.get("X-User-Id") || "anonymous"`. -/
def effectiveUserId (userIdHeader : Option String) : String :=
  match userIdHeader with
  | none => "anonymous"
  | some h => if h = "" then "anonymous" else h

/-- The worker's `fetch(request, env)` handler over the embedded state:
CORS preflight, privacy page, method check, secret check, rate limiting,
body parse + validation, source-language passthrough or Azure stage,
LLM refinement, response assembly.  External calls are the `azure` and
`llm` oracles; `now` is the wall clock shared by the KV operations of
this request.  The JS local `rateCheck` is referentially transparent and
is inlined at each of its uses. -/
def workerFetch (env : WorkerEnv) (method path : String) (userIdHeader : Option String)
    (body : BodyParse) (store : Store) (now : Nat)
    (azure : AzureOutcome) (llm : LLMOutcome) : WorkerResponse :=
  if method = "OPTIONS" then
    ⟨204, none, none, false, none, store, false, false, false⟩
  else if method = "GET" && path = "/privacy" then
    ⟨200, none, none, false, none, store, false, false, false⟩
  else if method ≠ "POST" then
    ⟨405, none, none, false, none, store, false, false, false⟩
  else if env.azureKey = "" || env.azureRegion = "" then
    ⟨500, none, some "Server misconfigured: missing Azure Translator credentials.",
      false, none, store, false, false, false⟩
  else if !(checkRateLimit store (effectiveUserId userIdHeader) now).1.allowed then
    ⟨429, none, some "Daily limit reached (25 translations/day). Please try again tomorrow.",
      true, some "0", (checkRateLimit store (effectiveUserId userIdHeader) now).2,
      false, false, false⟩
  else
    match body with
    | .failed msg =>
      ⟨502, none, some ("Translation error: " ++ msg), false, none,
        (checkRateLimit store (effectiveUserId userIdHeader) now).2, false, false, false⟩
    | .ok payload =>
      match payload.textLayers, payload.targetLocale with
      | .arr layers, some tgt =>
        if tgt = "" then
          ⟨400, none, some "Invalid request. Expected { textLayers, targetLocale }.",
            false, none, (checkRateLimit store (effectiveUserId userIdHeader) now).2,
            false, false, false⟩
        else if tgt = "en" || jsStartsWith tgt "en-" then
          ⟨200,
            some (refineWithLLM env.openaiKey layers
              (layers.map (fun l => (⟨l.id, l.text⟩ : TransResult))) llm),
            none, false,
            some (toString (checkRateLimit store (effectiveUserId userIdHeader) now).1.remaining),
            (checkRateLimit store (effectiveUserId userIdHeader) now).2,
            false, false, env.openaiKey != ""⟩
        else
          match translateWithAzure layers tgt azure with
          | .error msg =>
            ⟨502, none, some ("Translation error: " ++ msg), false, none,
              (checkRateLimit store (effectiveUserId userIdHeader) now).2,
              true, azureCalled layers tgt, false⟩
          | .ok optResults =>
            ⟨200,
              some (refineWithLLM env.openaiKey layers (depackResults optResults) llm),
              none, false,
              some (toString (checkRateLimit store (effectiveUserId userIdHeader) now).1.remaining),
              (checkRateLimit store (effectiveUserId userIdHeader) now).2,
              true, azureCalled layers tgt, env.openaiKey != ""⟩
      | _, _ =>
        ⟨400, none, some "Invalid request. Expected { textLayers, targetLocale }.",
          false, none, (checkRateLimit store (effectiveUserId userIdHeader) now).2,
          false, false, false⟩

example :
    (checkRateLimit (fun _ => none) "u" 0).1 = ⟨true, 24⟩ := by decide
example :
    (checkRateLimit (fun k => if k = "rate:u" then some ⟨"25", 86400⟩ else none) "u" 0).1
      = ⟨false, 0⟩ := by decide
example :
    ((checkRateLimit (fun _ => none) "u" 7).2 "rate:u") = some ⟨"1", 86407⟩ := by decide
example :
    (workerFetch ⟨"k", "r", ""⟩ "POST" "/" (some "u")
      (.ok ⟨.absent, some "fr", none, none⟩) (fun _ => none) 0
      (.ok []) .threw).status = 400 := by decide
example :
    (workerFetch ⟨"k", "r", ""⟩ "POST" "/" (some "u")
      (.ok ⟨.arr [⟨"a", "Heading", "Welcome"⟩, ⟨"b", "Date", "JAN"⟩], some "fr", none, none⟩)
      (fun _ => none) 0
      (.ok [⟨[⟨"[Heading] Bienvenue"⟩]⟩]) .threw).translations
      = some [⟨"a", "Bienvenue"⟩, ⟨"b", "JANV"⟩] := by decide

-- ────────────────────────────────────────────────────────────────────
-- Lemmas: the index-directed array fill of `translateWithAzure`
-- ────────────────────────────────────────────────────────────────────

/-- Writing at keys different from `j` leaves slot `j` unchanged. -/
theorem foldl_set_getElem?_of_ne {α β : Type} (kf : β → Nat) (vf : β → α)
    (l : List β) (init : List α) (j : Nat) (h : ∀ b ∈ l, kf b ≠ j) :
    (l.foldl (fun res b => res.set (kf b) (vf b)) init)[j]? = init[j]? := by
  induction l generalizing init with
  | nil => rfl
  | cons b t ih =>
    simp only [List.foldl_cons]
    rw [ih _ (fun x hx => h x (List.mem_cons_of_mem _ hx))]
    exact List.getElem?_set_ne (h b (List.mem_cons_self _ _))

/-- The fill preserves the length of the array. -/
theorem foldl_set_length {α β : Type} (kf : β → Nat) (vf : β → α)
    (l : List β) (init : List α) :
    (l.foldl (fun res b => res.set (kf b) (vf b)) init).length = init.length := by
  induction l generalizing init with
  | nil => rfl
  | cons b t ih =>
    simp only [List.foldl_cons]
    rw [ih]
    simp

/-- With pairwise-distinct keys, the slot at a written key holds that
write's value. -/
theorem foldl_set_getElem?_of_mem {α β : Type} (kf : β → Nat) (vf : β → α)
    (l : List β) (init : List α) (b : β)
    (hnd : (l.map kf).Nodup) (hb : b ∈ l) (hlt : kf b < init.length) :
    (l.foldl (fun res x => res.set (kf x) (vf x)) init)[kf b]? = some (vf b) := by
  induction l generalizing init with
  | nil => cases hb
  | cons c t ih =>
    simp only [List.map_cons, List.nodup_cons] at hnd
    rcases List.mem_cons.1 hb with rfl | hbt
    · simp only [List.foldl_cons]
      rw [foldl_set_getElem?_of_ne kf vf t (init.set (kf b) (vf b)) (kf b)
        (fun x hx e => hnd.1 (e ▸ List.mem_map_of_mem kf hx))]
      exact List.getElem?_set_self hlt
    · simp only [List.foldl_cons]
      exact ih (init.set (kf c) (vf c)) hnd.2 hbt (by simpa using hlt)

-- ────────────────────────────────────────────────────────────────────
-- Lemmas: structure of `azureLayers` and the merged results
-- ────────────────────────────────────────────────────────────────────

/-- The recorded original indices of the dictionary misses are pairwise
distinct. -/
theorem azureLayers_fst_nodup (layers : List TextLayer) (loc : String) :
    ((azureLayers layers loc).map Prod.fst).Nodup := by
  have h1 : List.Sublist ((azureLayers layers loc).map Prod.fst) (layers.enum.map Prod.fst) :=
    (List.filter_sublist _).map _
  rw [List.enum_map_fst] at h1
  exact h1.nodup (List.nodup_range _)

/-- Membership in `azureLayers`: exactly the dictionary misses, tagged
with their request position. -/
theorem mem_azureLayers {layers : List TextLayer} {loc : String} {j : Nat} {l : TextLayer} :
    (j, l) ∈ azureLayers layers loc ↔ layers[j]? = some l ∧ lookupAbbrev l.text loc = none := by
  simp [azureLayers, List.mem_filter, List.mk_mem_enum_iff_getElem?, Option.isNone_iff_eq_none]

/-- Projecting the original index out of the enumerated miss list. -/
theorem enum_map_key (az : List (Nat × TextLayer)) :
    az.enum.map (fun p => p.2.1) = az.map Prod.fst := by
  have h : (fun p : Nat × (Nat × TextLayer) => p.2.1) = Prod.fst ∘ Prod.snd := rfl
  rw [h, ← List.map_map, List.enum_map_snd]

/-- Every slot of the array returned by a successful `translateWithAzure`
is filled, and carries the id of the layer at the same request position. -/
theorem translateWithAzure_ok_ids {layers : List TextLayer} {loc : String}
    {outcome : AzureOutcome} {res : List (Option TransResult)}
    (h : translateWithAzure layers loc outcome = .ok res) :
    res.map (fun o => o.map TransResult.id) = layers.map (fun l => some l.id) := by
  unfold translateWithAzure at h
  by_cases hemp : (azureLayers layers loc).isEmpty
  · rw [if_pos hemp] at h
    cases h
    have hall : ∀ l ∈ layers, lookupAbbrev l.text loc ≠ none := by
      intro l hl
      obtain ⟨i, hi⟩ := List.mem_iff_getElem?.1 hl
      have hmem : (i, l) ∈ layers.enum := List.mk_mem_enum_iff_getElem?.2 hi
      have := List.filter_eq_nil_iff.1 (List.isEmpty_iff.1 hemp) (i, l) hmem
      simpa [Option.isNone_iff_eq_none] using this
    rw [dictResults, List.map_map]
    apply List.map_congr_left
    intro l hl
    cases hcase : lookupAbbrev l.text loc with
    | none => exact absurd hcase (hall l hl)
    | some m => simp [hcase]
  · rw [if_neg hemp] at h
    cases outcome with
    | httpError status body => cases h
    | ok items =>
      cases h
      apply List.ext_getElem?
      intro j
      rw [List.getElem?_map, List.getElem?_map]
      by_cases hj : j < layers.length
      · have hjd : j < (dictResults layers loc).length := by simp [dictResults, hj]
        obtain ⟨l, hl⟩ : ∃ l, layers[j]? = some l :=
          ⟨layers[j], List.getElem?_eq_getElem hj⟩
        rw [hl]
        cases hcase : lookupAbbrev l.text loc with
        | some m =>
          have hne : ∀ p ∈ (azureLayers layers loc).enum, p.2.1 ≠ j := by
            intro p hp e
            have hsnd : p.2 ∈ azureLayers layers loc := by
              have := List.mem_map_of_mem Prod.snd hp
              rwa [List.enum_map_snd] at this
            obtain ⟨hget, hnone⟩ := mem_azureLayers.1 hsnd
            rw [e, hl] at hget
            cases hget
            rw [hcase] at hnone
            cases hnone
          have h2 : (mergeAzureResults (dictResults layers loc) (azureLayers layers loc) items)[j]? =
              (dictResults layers loc)[j]? :=
            foldl_set_getElem?_of_ne _ _ _ _ _ hne
          rw [h2, dictResults, List.getElem?_map, hl]
          simp [hcase]
        | none =>
          have hmem : (j, l) ∈ azureLayers layers loc := mem_azureLayers.2 ⟨hl, hcase⟩
          obtain ⟨i, hi⟩ := List.mem_iff_getElem?.1 hmem
          have hmem2 : (i, (j, l)) ∈ (azureLayers layers loc).enum :=
            List.mk_mem_enum_iff_getElem?.2 hi
          have hnd : ((azureLayers layers loc).enum.map (fun p => p.2.1)).Nodup := by
            rw [enum_map_key]
            exact azureLayers_fst_nodup layers loc
          have h2 : (mergeAzureResults (dictResults layers loc) (azureLayers layers loc) items)[j]? =
              some (some ⟨l.id, stripContext (azureTextAt items i l.text) l.layerName⟩) :=
            foldl_set_getElem?_of_mem (fun p => p.2.1)
              (fun p => some ⟨p.2.2.id, stripContext (azureTextAt items p.1 p.2.2.text) p.2.2.layerName⟩)
              ((azureLayers layers loc).enum) (dictResults layers loc) (i, (j, l)) hnd hmem2 hjd
          rw [h2]
          rfl
      · have h1 : layers[j]? = (none : Option TextLayer) := List.getElem?_eq_none (by omega)
        have h2 : (mergeAzureResults (dictResults layers loc) (azureLayers layers loc) items)[j]? = none := by
          apply List.getElem?_eq_none
          rw [mergeAzureResults, foldl_set_length]
          simp only [dictResults, List.length_map]
          omega
        rw [h1, h2]
        rfl

/-- Reading the populated array out preserves per-position ids. -/
theorem depackResults_ids {res : List (Option TransResult)} {layers : List TextLayer}
    (h : res.map (fun o => o.map TransResult.id) = layers.map (fun l => some l.id)) :
    (depackResults res).map TransResult.id = layers.map TextLayer.id := by
  induction res generalizing layers with
  | nil =>
    cases layers with
    | nil => rfl
    | cons l lt => simp at h
  | cons o t ih =>
    cases layers with
    | nil => simp at h
    | cons l lt =>
      simp only [List.map_cons] at h
      injection h with h1 h2
      cases o with
      | none => simp at h1
      | some r =>
        have hid : r.id = l.id := by simpa using h1
        simp only [depackResults, List.map_cons] at ih ⊢
        exact List.cons_eq_cons.2 ⟨hid, ih h2⟩

/-- The refinement stage preserves the id sequence of its input. -/
theorem refineWithLLM_ids (key : String) (tl : List TextLayer)
    (az : List TransResult) (llm : LLMOutcome) :
    (refineWithLLM key tl az llm).map TransResult.id = az.map TransResult.id := by
  unfold refineWithLLM
  split
  · rfl
  · cases llm with
    | threw => rfl
    | httpError status => rfl
    | noContent => rfl
    | parseFailed => rfl
    | parsed v =>
      cases v with
      | nonArray => rfl
      | arr records => rw [List.map_map]; rfl

/-- C1: for every valid request that the pipeline answers successfully,
the sequence of ids in the response equals the sequence of ids in the
request (hence so do the multisets, and each input id appears exactly
once when the input ids are unique), whether items were resolved by the
dictionary fast path, the provider adapter, or the refinement stage. -/
theorem pipeline_preserves_ids
    (env : WorkerEnv) (path : String) (uid : Option String)
    (store : Store) (now : Nat) (azure : AzureOutcome) (llm : LLMOutcome)
    (layers : List TextLayer) (tgtOpt plab : Option String) (pcur : Option (List String))
    (h200 : (workerFetch env "POST" path uid (.ok ⟨.arr layers, tgtOpt, plab, pcur⟩)
      store now azure llm).status = 200) :
    ∃ ts, (workerFetch env "POST" path uid (.ok ⟨.arr layers, tgtOpt, plab, pcur⟩)
        store now azure llm).translations = some ts ∧
      ts.map TransResult.id = layers.map TextLayer.id := by
  unfold workerFetch at h200 ⊢
  rw [if_neg (by decide : ¬ (("POST" : String) = "OPTIONS"))] at h200 ⊢
  rw [if_neg (by simp : ¬ ((("POST" : String) = "GET" && path = "/privacy") = true))] at h200 ⊢
  rw [if_neg (by decide : ¬ (("POST" : String) ≠ "POST"))] at h200 ⊢
  by_cases hsec : ((env.azureKey = "" || env.azureRegion = "") = true)
  · rw [if_pos hsec] at h200
    simp at h200
  · rw [if_neg hsec] at h200 ⊢
    by_cases hrl : ((!(checkRateLimit store (effectiveUserId uid) now).1.allowed) = true)
    · rw [if_pos hrl] at h200
      simp at h200
    · rw [if_neg hrl] at h200 ⊢
      cases tgtOpt with
      | none => simp at h200
      | some tgt =>
        dsimp only at h200 ⊢
        by_cases hempty : tgt = ""
        · rw [if_pos hempty] at h200
          simp at h200
        · rw [if_neg hempty] at h200 ⊢
          by_cases hen : ((tgt = "en" || jsStartsWith tgt "en-") = true)
          · rw [if_pos hen]
            refine ⟨_, rfl, ?_⟩
            rw [refineWithLLM_ids, List.map_map]
            rfl
          · rw [if_neg hen] at h200 ⊢
            cases hres : translateWithAzure layers tgt azure with
            | error msg =>
              rw [hres] at h200
              simp at h200
            | ok optResults =>
              refine ⟨_, rfl, ?_⟩
              rw [refineWithLLM_ids]
              exact depackResults_ids (translateWithAzure_ok_ids hres)

/-- Concrete instantiation of `pipeline_preserves_ids`: a two-item request
(one dictionary hit, one Azure-translated item) whose response carries
exactly the input ids. -/
theorem pipeline_preserves_ids_witness :
    ∃ ts, (workerFetch ⟨"k", "r", ""⟩ "POST" "/" (some "u")
        (.ok ⟨.arr [⟨"a", "Heading", "Welcome"⟩, ⟨"b", "Date", "JAN"⟩], some "fr", none, none⟩)
        (fun _ => none) 0 (.ok [⟨[⟨"[Heading] Bienvenue"⟩]⟩]) .threw).translations = some ts ∧
      ts.map TransResult.id =
        [⟨"a", "Heading", "Welcome"⟩, ⟨"b", "Date", "JAN"⟩].map TextLayer.id :=
  pipeline_preserves_ids ⟨"k", "r", ""⟩ "/" (some "u")
    (fun _ => none) 0 (.ok [⟨[⟨"[Heading] Bienvenue"⟩]⟩]) .threw
    [⟨"a", "Heading", "Welcome"⟩, ⟨"b", "Date", "JAN"⟩] (some "fr") none none (by decide)

-- ────────────────────────────────────────────────────────────────────
-- Lemmas: the refinement merge map
-- ────────────────────────────────────────────────────────────────────

/-- The fold building `refinedMap` leaves keys untouched by any record. -/
theorem foldl_refined_apply (records : List LLMRec) (m : String → Option String) (i : String)
    (h : ∀ rec ∈ records, rec.id ≠ i) :
    (records.foldl
      (fun m r =>
        match r.translated with
        | .str s => if r.id = "" then m else fun k => if k = r.id then some s else m k
        | .notStr => m) m) i = m i := by
  induction records generalizing m with
  | nil => rfl
  | cons rec t ih =>
    simp only [List.foldl_cons]
    rw [ih _ (fun x hx => h x (List.mem_cons_of_mem _ hx))]
    cases htr : rec.translated with
    | notStr => rfl
    | str v =>
      by_cases hid : rec.id = ""
      · simp [hid]
      · have hne : i ≠ rec.id := fun e => h rec (List.mem_cons_self _ _) e.symm
        simp [hid, hne]

/-- An id that appears in no refinement record is absent from the map. -/
theorem buildRefinedMap_eq_none {records : List LLMRec} {i : String}
    (h : ∀ rec ∈ records, rec.id ≠ i) :
    buildRefinedMap records i = none :=
  foldl_refined_apply records (fun _ => none) i h

/-- C5: the refinement stage is the identity on the provider results
whenever no refinement credential is configured, and on every failure of
the refinement call — a thrown error/timeout, a non-success HTTP status,
missing content, unparseable content, or content that is not a list. -/
theorem refineWithLLM_fallback (key : String) (tl : List TextLayer)
    (az : List TransResult) :
    (∀ llm, key = "" → refineWithLLM key tl az llm = az) ∧
    refineWithLLM key tl az .threw = az ∧
    (∀ status, refineWithLLM key tl az (.httpError status) = az) ∧
    refineWithLLM key tl az .noContent = az ∧
    refineWithLLM key tl az .parseFailed = az ∧
    refineWithLLM key tl az (.parsed .nonArray) = az := by
  refine ⟨fun llm hk => ?_, ?_, fun status => ?_, ?_, ?_, ?_⟩ <;>
    unfold refineWithLLM <;> first
      | (rw [if_pos hk])
      | (split <;> rfl)

/-- Instantiation of `refineWithLLM_fallback` at concrete inputs: no key
configured, and a key configured but a failing call. -/
theorem refineWithLLM_fallback_witness :
    refineWithLLM "" [] [⟨"a", "x"⟩] (.parsed (.arr [⟨"a", .str "y"⟩])) = [⟨"a", "x"⟩] ∧
    refineWithLLM "sk-test" [] [⟨"a", "x"⟩] .threw = [⟨"a", "x"⟩] :=
  ⟨(refineWithLLM_fallback "" [] [⟨"a", "x"⟩]).1 _ rfl,
   (refineWithLLM_fallback "sk-test" [] [⟨"a", "x"⟩]).2.1⟩

/-- C6: merging a parsed refinement response over the provider results
emits exactly one output element per provider result with the same id in
the same position (no id is dropped); an item whose id is absent from the
refinement response — or mapped by no usable record — keeps its provider
translation untouched, and an item whose id maps to a non-empty refined
text carries that refined text. -/
theorem refineWithLLM_merge_by_id (key : String) (tl : List TextLayer)
    (az : List TransResult) (records : List LLMRec) (hkey : key ≠ "") :
    (refineWithLLM key tl az (.parsed (.arr records))).length = az.length ∧
    (refineWithLLM key tl az (.parsed (.arr records))).map TransResult.id
      = az.map TransResult.id ∧
    (∀ (j : Nat) (r : TransResult), az[j]? = some r →
      (buildRefinedMap records r.id = none →
        (refineWithLLM key tl az (.parsed (.arr records)))[j]? = some r) ∧
      ((∀ rec ∈ records, rec.id ≠ r.id) →
        (refineWithLLM key tl az (.parsed (.arr records)))[j]? = some r) ∧
      (∀ v, buildRefinedMap records r.id = some v → v ≠ "" →
        (refineWithLLM key tl az (.parsed (.arr records)))[j]? = some ⟨r.id, v⟩)) := by
  unfold refineWithLLM
  rw [if_neg hkey]
  dsimp only
  refine ⟨List.length_map _ _, by rw [List.map_map]; rfl, fun j r hj => ⟨?_, ?_, ?_⟩⟩
  · intro hnone
    rw [List.getElem?_map, hj]
    simp only [Option.map_some']
    rw [hnone]
  · intro habs
    rw [List.getElem?_map, hj]
    simp only [Option.map_some']
    rw [buildRefinedMap_eq_none habs]
  · intro v hv hne
    rw [List.getElem?_map, hj]
    simp only [Option.map_some']
    rw [hv]
    simp [hne]

/-- Instantiation of `refineWithLLM_merge_by_id`: id `"b"` is absent from
the refinement response and keeps its provider value; id `"a"` carries the
refined text. -/
theorem refineWithLLM_merge_by_id_witness :
    (refineWithLLM "sk-test" [] [⟨"a", "pa"⟩, ⟨"b", "pb"⟩]
        (.parsed (.arr [⟨"a", .str "ra"⟩])))[1]? = some ⟨"b", "pb"⟩ ∧
    (refineWithLLM "sk-test" [] [⟨"a", "pa"⟩, ⟨"b", "pb"⟩]
        (.parsed (.arr [⟨"a", .str "ra"⟩])))[0]? = some ⟨"a", "ra"⟩ :=
  ⟨((refineWithLLM_merge_by_id "sk-test" [] [⟨"a", "pa"⟩, ⟨"b", "pb"⟩]
      [⟨"a", .str "ra"⟩] (by decide)).2.2 1 ⟨"b", "pb"⟩ (by decide)).1 (by decide),
   ((refineWithLLM_merge_by_id "sk-test" [] [⟨"a", "pa"⟩, ⟨"b", "pb"⟩]
      [⟨"a", .str "ra"⟩] (by decide)).2.2 0 ⟨"a", "pa"⟩ (by decide)).2.2 "ra" (by decide) (by decide)⟩

/-- C10: a refinement record whose `translated` field is the empty string
is treated as absent by the merge (`refinedMap.get(id) || r.translated`
falls through on the falsy empty string): the merged output keeps the
provider translation for that id even though a record for the id is
present in the refinement payload. -/
theorem refine_empty_string_keeps_provider (key : String) (tl : List TextLayer)
    (az : List TransResult) (records : List LLMRec) (j : Nat) (r : TransResult)
    (hkey : key ≠ "") (hj : az[j]? = some r)
    (hmap : buildRefinedMap records r.id = some "") :
    (refineWithLLM key tl az (.parsed (.arr records)))[j]? = some r := by
  unfold refineWithLLM
  rw [if_neg hkey]
  dsimp only
  rw [List.getElem?_map, hj]
  simp only [Option.map_some']
  rw [hmap]
  rfl

/-- Instantiation of `refine_empty_string_keeps_provider`: the record
`{id: "a", translated: ""}` is present, yet the provider translation
survives the merge. -/
theorem refine_empty_string_keeps_provider_witness :
    (refineWithLLM "sk-test" [] [⟨"a", "prov"⟩]
        (.parsed (.arr [⟨"a", .str ""⟩])))[0]? = some ⟨"a", "prov"⟩ :=
  refine_empty_string_keeps_provider "sk-test" [] [⟨"a", "prov"⟩] [⟨"a", .str ""⟩]
    0 ⟨"a", "prov"⟩ (by decide) (by decide) (by decide)

-- ────────────────────────────────────────────────────────────────────
-- C7: the dictionary fast path and the provider batch
-- ────────────────────────────────────────────────────────────────────

/-- Filtering an enumeration by a predicate on the values and projecting
the values back is filtering the underlying list. -/
theorem enumFrom_filter_map_snd {α : Type} (p : α → Bool) :
    ∀ (n : Nat) (l : List α),
      ((List.enumFrom n l).filter (fun q => p q.2)).map Prod.snd = l.filter p := by
  intro n l
  induction l generalizing n with
  | nil => rfl
  | cons a t ih =>
    simp only [List.enumFrom_cons, List.filter_cons]
    by_cases hp : p a
    · simp [hp, ih (n + 1)]
    · simp [hp, ih (n + 1)]

/-- C7: the batch sent to the provider consists of exactly the wrapped
dictionary-miss items (every dictionary hit is excluded); when every item
resolves via the dictionary the provider call is not made at all, and the
result is the dictionary resolution alone, whatever the provider oracle
would have answered. -/
theorem provider_batch_excludes_dictionary_hits (layers : List TextLayer) (loc : String) :
    azureBody layers loc
      = (layers.filter (fun l => (lookupAbbrev l.text loc).isNone)).map wrapContext ∧
    ((∀ l ∈ layers, (lookupAbbrev l.text loc).isSome) → azureCalled layers loc = false) ∧
    (azureCalled layers loc = false →
      ∀ outcome, translateWithAzure layers loc outcome = .ok (dictResults layers loc)) := by
  refine ⟨?_, ?_, ?_⟩
  · have h0 := enumFrom_filter_map_snd (fun l : TextLayer => (lookupAbbrev l.text loc).isNone) 0 layers
    have h1 : (azureLayers layers loc).map Prod.snd
        = layers.filter (fun l => (lookupAbbrev l.text loc).isNone) := h0
    rw [azureBody, ← h1, List.map_map]
    rfl
  · intro hall
    have hnil : azureLayers layers loc = [] := by
      apply List.filter_eq_nil_iff.2
      intro q hq
      have hq2 : q.2 ∈ layers := by
        have := List.mem_map_of_mem Prod.snd hq
        rwa [List.enum_map_snd] at this
      simp [Option.isNone_iff_eq_none, Option.isSome_iff_ne_none.1 (hall q.2 hq2)]
    rw [azureCalled, hnil]
    rfl
  · intro hnc outcome
    have hemp : (azureLayers layers loc).isEmpty = true := by
      rw [azureCalled] at hnc
      simpa using hnc
    unfold translateWithAzure
    rw [if_pos hemp]

/-- Instantiation of `provider_batch_excludes_dictionary_hits`: a batch of
two dictionary hits skips the provider, and the result ignores a failing
provider oracle. -/
theorem provider_batch_excludes_dictionary_hits_witness :
    (∀ l ∈ [(⟨"a", "Date", "JAN"⟩ : TextLayer), ⟨"b", "Day", "Mon"⟩],
      (lookupAbbrev l.text "fr").isSome) ∧
    azureCalled [⟨"a", "Date", "JAN"⟩, ⟨"b", "Day", "Mon"⟩] "fr" = false ∧
    translateWithAzure [⟨"a", "Date", "JAN"⟩, ⟨"b", "Day", "Mon"⟩] "fr" (.httpError 500 "boom")
      = .ok (dictResults [⟨"a", "Date", "JAN"⟩, ⟨"b", "Day", "Mon"⟩] "fr") := by
  refine ⟨by decide, ?_, ?_⟩
  · exact (provider_batch_excludes_dictionary_hits
      [⟨"a", "Date", "JAN"⟩, ⟨"b", "Day", "Mon"⟩] "fr").2.1 (by decide)
  · exact (provider_batch_excludes_dictionary_hits
      [⟨"a", "Date", "JAN"⟩, ⟨"b", "Day", "Mon"⟩] "fr").2.2
      ((provider_batch_excludes_dictionary_hits
        [⟨"a", "Date", "JAN"⟩, ⟨"b", "Day", "Mon"⟩] "fr").2.1 (by decide)) _

-- ────────────────────────────────────────────────────────────────────
-- The handler after its admission gate: validation outcomes
-- ────────────────────────────────────────────────────────────────────

/-- With secrets configured and the caller admitted, the handler returns
the 400 validation response exactly for the payloads
`failsValidationB` flags, carrying the post-admission store. -/
theorem workerFetch_validation_outcome
    (env : WorkerEnv) (path : String) (uid : Option String) (p : Payload)
    (store : Store) (now : Nat) (azure : AzureOutcome) (llm : LLMOutcome)
    (hk : env.azureKey ≠ "") (hr : env.azureRegion ≠ "")
    (hallow : (checkRateLimit store (effectiveUserId uid) now).1.allowed = true) :
    (failsValidationB p = true →
      workerFetch env "POST" path uid (.ok p) store now azure llm =
        ⟨400, none, some "Invalid request. Expected { textLayers, targetLocale }.",
          false, none, (checkRateLimit store (effectiveUserId uid) now).2,
          false, false, false⟩) ∧
    (failsValidationB p = false →
      (workerFetch env "POST" path uid (.ok p) store now azure llm).status ≠ 400) := by
  unfold workerFetch
  rw [if_neg (by decide : ¬ (("POST" : String) = "OPTIONS"))]
  rw [if_neg (by simp : ¬ ((("POST" : String) = "GET" && path = "/privacy") = true))]
  rw [if_neg (by decide : ¬ (("POST" : String) ≠ "POST"))]
  rw [if_neg (by simp [hk, hr] : ¬ ((env.azureKey = "" || env.azureRegion = "") = true))]
  rw [if_neg (by simp [hallow] :
    ¬ ((!(checkRateLimit store (effectiveUserId uid) now).1.allowed) = true))]
  obtain ⟨ptl, ptgt, plab, pcur⟩ := p
  cases ptl with
  | absent =>
    cases ptgt with
    | none => exact ⟨fun _ => rfl, fun hfv => by simp [failsValidationB] at hfv⟩
    | some t => exact ⟨fun _ => rfl, fun hfv => by simp [failsValidationB] at hfv⟩
  | nonArray =>
    cases ptgt with
    | none => exact ⟨fun _ => rfl, fun hfv => by simp [failsValidationB] at hfv⟩
    | some t => exact ⟨fun _ => rfl, fun hfv => by simp [failsValidationB] at hfv⟩
  | arr layers =>
    cases ptgt with
    | none => exact ⟨fun _ => rfl, fun hfv => by simp [failsValidationB] at hfv⟩
    | some tgt =>
      constructor
      · intro hfv
        have ht : tgt = "" := by simpa [failsValidationB] using hfv
        subst ht
        dsimp only
        rw [if_pos rfl]
      · intro hfv
        have ht : tgt ≠ "" := by simpa [failsValidationB] using hfv
        dsimp only
        rw [if_neg ht]
        by_cases hen : ((tgt = "en" || jsStartsWith tgt "en-") = true)
        · rw [if_pos hen]
          simp
        · rw [if_neg hen]
          cases htr : translateWithAzure layers tgt azure with
          | error m => simp
          | ok o => simp

-- ────────────────────────────────────────────────────────────────────
-- C2: quota consumption on validation errors
-- ────────────────────────────────────────────────────────────────────

/-- Counterexample to C2 as stated: a request whose body has no
`textLayers` field receives the 400 validation response, yet the caller's
stored quota counter went from absent (count 0) to `"1"` — the admission
check precedes validation and already consumed a quota unit. -/
theorem validation_error_consumes_quota_counterexample :
    (workerFetch ⟨"k", "r", ""⟩ "POST" "/" (some "u")
        (.ok ⟨.absent, some "fr", none, none⟩) (fun _ => none) 0 (.ok []) .threw).status = 400 ∧
    kvGet (fun _ => none) (rateKey "u") 0 = none ∧
    kvGet ((workerFetch ⟨"k", "r", ""⟩ "POST" "/" (some "u")
        (.ok ⟨.absent, some "fr", none, none⟩) (fun _ => none) 0 (.ok []) .threw).store)
      (rateKey "u") 0 = some "1" := by
  decide

/-- C2 (amended): a validation-rejected request is answered with the 400
validation error, but the caller's quota counter has already been
incremented by the admission check that runs before body parsing — the
response store is the post-admission store, whose entry for the caller
holds `current + 1` with a fresh one-day expiry (whenever the caller was
admitted, i.e. was under the cap). -/
theorem validation_error_after_quota_increment
    (env : WorkerEnv) (path : String) (uid : Option String) (p : Payload)
    (store : Store) (now : Nat) (azure : AzureOutcome) (llm : LLMOutcome)
    (hk : env.azureKey ≠ "") (hr : env.azureRegion ≠ "")
    (hallow : (checkRateLimit store (effectiveUserId uid) now).1.allowed = true)
    (hfail : failsValidationB p = true) :
    (workerFetch env "POST" path uid (.ok p) store now azure llm).status = 400 ∧
    (workerFetch env "POST" path uid (.ok p) store now azure llm).store
      = (checkRateLimit store (effectiveUserId uid) now).2 ∧
    (workerFetch env "POST" path uid (.ok p) store now azure llm).store
        (rateKey (effectiveUserId uid))
      = some ⟨toString (rlRead store (effectiveUserId uid) now + 1), now + DAY_IN_SECONDS⟩ := by
  have h400 := (workerFetch_validation_outcome env path uid p store now azure llm hk hr hallow).1 hfail
  rw [h400]
  have hlt : ¬ (DAILY_LIMIT ≤ jsParseIntOr0 (kvGet store (rateKey (effectiveUserId uid)) now)) := by
    intro hle
    have hden : (checkRateLimit store (effectiveUserId uid) now).1.allowed = false := by
      unfold checkRateLimit
      dsimp only
      rw [if_pos hle]
    rw [hden] at hallow
    exact absurd hallow (by decide)
  refine ⟨rfl, rfl, ?_⟩
  unfold checkRateLimit
  dsimp only
  rw [if_neg hlt]
  simp [kvPut, rlRead]

/-- Instantiation of `validation_error_after_quota_increment` at a
concrete request: 400 response and the counter stored as `"1"`. -/
theorem validation_error_after_quota_increment_witness :
    (workerFetch ⟨"k", "r", ""⟩ "POST" "/" (some "u")
        (.ok ⟨.nonArray, some "fr", none, none⟩) (fun _ => none) 3 (.ok []) .threw).status = 400 ∧
    (workerFetch ⟨"k", "r", ""⟩ "POST" "/" (some "u")
        (.ok ⟨.nonArray, some "fr", none, none⟩) (fun _ => none) 3 (.ok []) .threw).store
      = (checkRateLimit (fun _ => none) (effectiveUserId (some "u")) 3).2 ∧
    (workerFetch ⟨"k", "r", ""⟩ "POST" "/" (some "u")
        (.ok ⟨.nonArray, some "fr", none, none⟩) (fun _ => none) 3 (.ok []) .threw).store
        (rateKey (effectiveUserId (some "u")))
      = some ⟨"1", 86403⟩ :=
  validation_error_after_quota_increment ⟨"k", "r", ""⟩ "/" (some "u")
    ⟨.nonArray, some "fr", none, none⟩ (fun _ => none) 3 (.ok []) .threw
    (by decide) (by decide) (by decide) (by decide)

-- ────────────────────────────────────────────────────────────────────
-- C3: the cap denies the 26th admission and skips all stages
-- ────────────────────────────────────────────────────────────────────

set_option maxRecDepth 40000 in
set_option maxHeartbeats 4000000 in
/-- C3: an admission finding the counter at or above the cap returns
`{allowed: false, remaining: 0}` and leaves the store untouched; and
concretely, after 25 allowed admissions in one window the 26th is denied
with remaining 0 and an unchanged store, and a request denied this way is
answered 429 with no translations and no dictionary, provider, or
refinement stage running. -/
theorem quota_cap_denies_and_skips_stages :
    (∀ (store : Store) (uid : String) (now : Nat),
      DAILY_LIMIT ≤ rlRead store uid now →
        checkRateLimit store uid now = (⟨false, 0⟩, store)) ∧
    (admitTimes "u" (fun _ => none) (List.replicate 25 0)).1.all (·.allowed) = true ∧
    (admitTimes "u" (fun _ => none) (List.replicate 25 0)).1.length = 25 ∧
    (checkRateLimit (admitTimes "u" (fun _ => none) (List.replicate 25 0)).2 "u" 0).1
      = ⟨false, 0⟩ ∧
    (checkRateLimit (admitTimes "u" (fun _ => none) (List.replicate 25 0)).2 "u" 0).2
      = (admitTimes "u" (fun _ => none) (List.replicate 25 0)).2 ∧
    (workerFetch ⟨"k", "r", "sk"⟩ "POST" "/" (some "u")
        (.ok ⟨.arr [⟨"a", "Heading", "Welcome"⟩], some "fr", none, none⟩)
        (admitTimes "u" (fun _ => none) (List.replicate 25 0)).2 0
        (.ok [⟨[⟨"Bonjour"⟩]⟩]) (.parsed (.arr []))).status = 429 ∧
    (workerFetch ⟨"k", "r", "sk"⟩ "POST" "/" (some "u")
        (.ok ⟨.arr [⟨"a", "Heading", "Welcome"⟩], some "fr", none, none⟩)
        (admitTimes "u" (fun _ => none) (List.replicate 25 0)).2 0
        (.ok [⟨[⟨"Bonjour"⟩]⟩]) (.parsed (.arr []))).rateLimited = true ∧
    (workerFetch ⟨"k", "r", "sk"⟩ "POST" "/" (some "u")
        (.ok ⟨.arr [⟨"a", "Heading", "Welcome"⟩], some "fr", none, none⟩)
        (admitTimes "u" (fun _ => none) (List.replicate 25 0)).2 0
        (.ok [⟨[⟨"Bonjour"⟩]⟩]) (.parsed (.arr []))).remainingHeader = some "0" ∧
    (workerFetch ⟨"k", "r", "sk"⟩ "POST" "/" (some "u")
        (.ok ⟨.arr [⟨"a", "Heading", "Welcome"⟩], some "fr", none, none⟩)
        (admitTimes "u" (fun _ => none) (List.replicate 25 0)).2 0
        (.ok [⟨[⟨"Bonjour"⟩]⟩]) (.parsed (.arr []))).translations = none ∧
    (workerFetch ⟨"k", "r", "sk"⟩ "POST" "/" (some "u")
        (.ok ⟨.arr [⟨"a", "Heading", "Welcome"⟩], some "fr", none, none⟩)
        (admitTimes "u" (fun _ => none) (List.replicate 25 0)).2 0
        (.ok [⟨[⟨"Bonjour"⟩]⟩]) (.parsed (.arr []))).dictionaryRan = false ∧
    (workerFetch ⟨"k", "r", "sk"⟩ "POST" "/" (some "u")
        (.ok ⟨.arr [⟨"a", "Heading", "Welcome"⟩], some "fr", none, none⟩)
        (admitTimes "u" (fun _ => none) (List.replicate 25 0)).2 0
        (.ok [⟨[⟨"Bonjour"⟩]⟩]) (.parsed (.arr []))).providerCalled = false ∧
    (workerFetch ⟨"k", "r", "sk"⟩ "POST" "/" (some "u")
        (.ok ⟨.arr [⟨"a", "Heading", "Welcome"⟩], some "fr", none, none⟩)
        (admitTimes "u" (fun _ => none) (List.replicate 25 0)).2 0
        (.ok [⟨[⟨"Bonjour"⟩]⟩]) (.parsed (.arr []))).refineCalled = false := by
  have hden : ∀ (store : Store) (uid : String) (now : Nat),
      DAILY_LIMIT ≤ rlRead store uid now →
        checkRateLimit store uid now = (⟨false, 0⟩, store) := by
    intro store uid now h
    unfold checkRateLimit
    dsimp only
    exact if_pos h
  refine ⟨hden, by decide, by decide, ?_, ?_, by decide, by decide, by decide,
    by decide, by decide, by decide, by decide⟩
  · rw [hden _ _ _ (by decide)]
  · rw [hden _ _ _ (by decide)]

/-- Instantiation of the universal part of
`quota_cap_denies_and_skips_stages`: a counter already at 30 is denied
without mutation. -/
theorem quota_cap_denies_and_skips_stages_witness :
    checkRateLimit (fun k => if k = rateKey "w" then some ⟨"30", 500⟩ else none) "w" 0
      = (⟨false, 0⟩, fun k => if k = rateKey "w" then some ⟨"30", 500⟩ else none) :=
  quota_cap_denies_and_skips_stages.1
    (fun k => if k = rateKey "w" then some ⟨"30", 500⟩ else none) "w" 0 (by decide)

-- ────────────────────────────────────────────────────────────────────
-- C4: the expiry of the quota window
-- ────────────────────────────────────────────────────────────────────

/-- Counterexample to C4 as stated: a second allowed admission in the
same window (at `now = 100`, well inside the day opened at `now = 0`)
rewrites the entry with expiry `86500`, later than the `86400` expiry
anchored at the first admission — the TTL slides per call instead of
staying fixed by the first increment. -/
theorem ttl_anchored_at_first_admission_counterexample :
    (checkRateLimit (fun _ => none) "u" 0).1.allowed = true ∧
    (checkRateLimit (fun _ => none) "u" 0).2 (rateKey "u") = some ⟨"1", 86400⟩ ∧
    (checkRateLimit (checkRateLimit (fun _ => none) "u" 0).2 "u" 100).1.allowed = true ∧
    (checkRateLimit (checkRateLimit (fun _ => none) "u" 0).2 "u" 100).2 (rateKey "u")
      = some ⟨"2", 86500⟩ := by
  decide

/-- C4 (amended): an allowed admission increments the count and returns
`{allowed: true, remaining: N - count - 1}`, and (re)writes the entry
with expiry one day from *that* admission — so each subsequent allowed
admission in the window pushes the expiry later (a sliding, per-call
TTL, not one anchored at the first increment). -/
theorem allowed_admission_slides_ttl (store : Store) (uid : String) (now : Nat)
    (h : rlRead store uid now < DAILY_LIMIT) :
    (checkRateLimit store uid now).1
      = ⟨true, DAILY_LIMIT - rlRead store uid now - 1⟩ ∧
    (checkRateLimit store uid now).2 (rateKey uid)
      = some ⟨toString (rlRead store uid now + 1), now + DAY_IN_SECONDS⟩ := by
  unfold rlRead at h
  unfold checkRateLimit
  dsimp only
  rw [if_neg (Nat.not_le.2 h)]
  exact ⟨rfl, by simp [kvPut, rlRead]⟩

/-- Instantiation of `allowed_admission_slides_ttl`: the first admission
at time 5 stores `"1"` expiring at `86405`. -/
theorem allowed_admission_slides_ttl_witness :
    (checkRateLimit (fun _ => none) "u" 5).1 = ⟨true, 24⟩ ∧
    (checkRateLimit (fun _ => none) "u" 5).2 (rateKey "u") = some ⟨"1", 86405⟩ :=
  allowed_admission_slides_ttl (fun _ => none) "u" 5 (by decide)

-- ────────────────────────────────────────────────────────────────────
-- C8: what validation does and does not reject
-- ────────────────────────────────────────────────────────────────────

set_option maxRecDepth 200000 in
set_option maxHeartbeats 4000000 in
/-- Counterexample to C8 as stated: a payload of 501 items, and a payload
whose single item's text is 5001 characters long, both pass validation
and are answered 200 — no maximum item count and no per-item character
maximum exist in the handler. -/
theorem no_size_limit_counterexample :
    (workerFetch ⟨"k", "r", ""⟩ "POST" "/" (some "u")
        (.ok ⟨.arr (List.replicate 501 ⟨"i", "n", "JAN"⟩), some "fr", none, none⟩)
        (fun _ => none) 0 (.ok []) .threw).status = 200 ∧
    (workerFetch ⟨"k", "r", ""⟩ "POST" "/" (some "u")
        (.ok ⟨.arr [⟨"i", "n", String.mk (List.replicate 5001 'a')⟩], some "fr", none, none⟩)
        (fun _ => none) 0 (.ok [⟨[⟨"x"⟩]⟩]) .threw).status = 200 := by
  decide

/-- C8 (amended): request validation rejects exactly the payloads whose
item list is missing or not an array or whose target locale is missing or
empty; it imposes no maximum item count and no per-item character
maximum (a payload of any size passes validation). -/
theorem validation_checks_shape_only
    (env : WorkerEnv) (path : String) (uid : Option String) (p : Payload)
    (store : Store) (now : Nat) (azure : AzureOutcome) (llm : LLMOutcome)
    (hk : env.azureKey ≠ "") (hr : env.azureRegion ≠ "")
    (hallow : (checkRateLimit store (effectiveUserId uid) now).1.allowed = true) :
    failsValidationB p = true ↔
      (workerFetch env "POST" path uid (.ok p) store now azure llm).status = 400 := by
  obtain ⟨h1, h2⟩ := workerFetch_validation_outcome env path uid p store now azure llm hk hr hallow
  constructor
  · intro h
    rw [h1 h]
  · intro h
    cases hfv : failsValidationB p with
    | true => rfl
    | false => exact absurd h (h2 hfv)

/-- Instantiation of `validation_checks_shape_only`: a shape-invalid
payload is answered 400. -/
theorem validation_checks_shape_only_witness :
    (workerFetch ⟨"k", "r", ""⟩ "POST" "/" (some "u")
        (.ok ⟨.absent, some "fr", none, none⟩) (fun _ => none) 0 (.ok []) .threw).status = 400 :=
  (validation_checks_shape_only ⟨"k", "r", ""⟩ "/" (some "u")
    ⟨.absent, some "fr", none, none⟩ (fun _ => none) 0 (.ok []) .threw
    (by decide) (by decide) (by decide)).1 (by decide)

-- ────────────────────────────────────────────────────────────────────
-- C9: the admission check-and-increment is not atomic
-- ────────────────────────────────────────────────────────────────────

/-- C9 evidence: `checkRateLimit` decomposes into a read phase and a
decide-and-write phase separated by an `await` suspension point; under
the interleaving read₁, read₂, write₁, write₂ on a counter at 24, both
calls read the same count 24 and both are admitted, the final stored
counter is `"25"` (one admission lost), whereas the sequential executions
deny the second call. -/
theorem rate_limit_read_write_race :
    (∀ (store : Store) (uid : String) (now : Nat),
      checkRateLimit store uid now = rlWrite store uid now (rlRead store uid now)) ∧
    rlRead (fun k => if k = rateKey "u" then some ⟨"24", 86400⟩ else none) "u" 0 = 24 ∧
    (rlWrite (fun k => if k = rateKey "u" then some ⟨"24", 86400⟩ else none) "u" 0
      (rlRead (fun k => if k = rateKey "u" then some ⟨"24", 86400⟩ else none) "u" 0)).1.allowed
      = true ∧
    (rlWrite
      (rlWrite (fun k => if k = rateKey "u" then some ⟨"24", 86400⟩ else none) "u" 0
        (rlRead (fun k => if k = rateKey "u" then some ⟨"24", 86400⟩ else none) "u" 0)).2
      "u" 0
      (rlRead (fun k => if k = rateKey "u" then some ⟨"24", 86400⟩ else none) "u" 0)).1.allowed
      = true ∧
    kvGet
      (rlWrite
        (rlWrite (fun k => if k = rateKey "u" then some ⟨"24", 86400⟩ else none) "u" 0
          (rlRead (fun k => if k = rateKey "u" then some ⟨"24", 86400⟩ else none) "u" 0)).2
        "u" 0
        (rlRead (fun k => if k = rateKey "u" then some ⟨"24", 86400⟩ else none) "u" 0)).2
      (rateKey "u") 0 = some "25" ∧
    (checkRateLimit
      (checkRateLimit (fun k => if k = rateKey "u" then some ⟨"24", 86400⟩ else none) "u" 0).2
      "u" 0).1.allowed = false :=
  ⟨fun _ _ _ => rfl, by decide, by decide, by decide, by decide, by decide⟩

end Localyse
